import Mathlib

/- Shallow embedding of pfio's HTTP cache (pfio/cache/http_cache.py) and of the
   v2 filesystem abstraction (pfio/v2/fs.py).  Stateful Python code is modelled
   with explicit state passing; exceptions are modelled with `Except`;
   `urllib3` requests are modelled as a transport function that maps a server
   state, a method, a URL, headers and a body to a new server state and an
   outcome.  Wall-clock time (`time.time()`) is modelled as a rational number
   passed in explicitly; the current process id (`os.getpid()`) is a natural
   number passed in explicitly. -/

namespace Pfio

/-- Bytes of an HTTP body, one `Nat` per byte. -/
abbrev Bytes := List Nat

/-- An HTTP response as seen through urllib3: a status code and a body. -/
structure HTTPResponse where
  status : Nat
  data : Bytes
deriving DecidableEq, Repr

/-- Outcome of one `urlopen` call: either a `urllib3.exceptions.RequestError`
raised at network level (carrying its message), or an HTTP response. -/
inductive ReqResult where
  | error (msg : String)
  | response (res : HTTPResponse)
deriving DecidableEq, Repr

/-- Model of `urllib3.poolmanager.PoolManager(retries=..., timeout=...)`: the
pooled client handle records the configuration it was built with. -/
structure PoolManager where
  retries : Int
  timeout : Int
deriving DecidableEq, Repr

/-- State of `_ConnectionPool` (http_cache.py, lines 16-43): configured retry
count and timeout, the lazily built client handle, and the process id recorded
when the handle was last built. -/
structure ConnPool where
  retries : Int
  timeout : Int
  conn : Option PoolManager
  pid : Option Nat
deriving DecidableEq, Repr

/-- Model of the property `_ConnectionPool.is_forked`:
`self.pid != os.getppid()` compares the recorded pid with the current one,
which is passed in explicitly here. -/
def ConnPool.is_forked (p : ConnPool) (curPid : Nat) : Bool :=
  p.pid != some curPid

/-- Model of `_ConnectionPool.urlopen` (http_cache.py, lines 36-43) restricted
to its client-lifecycle effect: if the pool is forked or the client was never
built, rebuild the client with the configured retries and timeout and record
the current pid.  The returned `Bool` reports whether a rebuild happened; the
delegated `self.conn.urlopen(...)` network call itself is external I/O and is
modelled at the connector layer. -/
def ConnPool.urlopen (p : ConnPool) (curPid : Nat) : ConnPool × Bool :=
  if p.is_forked curPid || p.conn.isNone then
    ({ p with conn := some ⟨p.retries, p.timeout⟩, pid := some curPid }, true)
  else
    (p, false)

/-- Runs a sequence of `urlopen` calls, each tagged with the pid of the calling
process, and counts how many of them rebuilt the pooled client. -/
def ConnPool.runCalls : ConnPool → List Nat → ConnPool × Nat
  | p, [] => (p, 0)
  | p, q :: qs =>
    let step := p.urlopen q
    let rest := ConnPool.runCalls step.1 qs
    (rest.1, (if step.2 then 1 else 0) + rest.2)

/-- Model of `_get_connection_pool` (http_cache.py, lines 49-53).  The global
`CONNECTION_POOL` variable is passed and returned explicitly: if it is unset,
a fresh `_ConnectionPool(retries, timeout)` is created and stored; otherwise
the existing pool is returned and the arguments are unused. -/
def _get_connection_pool (g : Option ConnPool) (retries timeout : Int) :
    ConnPool × Option ConnPool :=
  match g with
  | none =>
    let p : ConnPool := ⟨retries, timeout, none, none⟩
    (p, some p)
  | some p => (p, some p)

/-- Runs a sequence of `HTTPConnector.__init__` calls as far as the pool is
concerned (each calls `_get_connection_pool(retries, timeout)`, http_cache.py
line 77), threading the global pool variable through, and collects the pool
each constructor received. -/
def connectorInits : Option ConnPool → List (Int × Int) → List ConnPool × Option ConnPool
  | g, [] => ([], g)
  | g, (r, t) :: rest =>
    let step := _get_connection_pool g r t
    let more := connectorInits step.2 rest
    (step.1 :: more.1, more.2)

/-- Mutable state of `HTTPConnector` (http_cache.py, lines 56-77): the
trailing-slash normalized base url, the optional bearer token file path, the
cached token text and the time of its last refresh. -/
structure ConnectorState where
  url : String
  bearer_token_path : Option String
  bearer_token : String
  bearer_token_updated : ℚ
deriving DecidableEq, Repr

/-- Model of Python `str.startswith(c)` for a one-character prefix: true
exactly when the first character of the string is `c`. -/
def pyStartsWith (s : String) (c : Char) : Bool :=
  match s.data with
  | [] => false
  | d :: _ => d == c

/-- Model of Python `str.endswith(c)` for a one-character suffix: true
exactly when the last character of the string is `c`. -/
def pyEndsWith (s : String) (c : Char) : Bool :=
  match s.data.getLast? with
  | some d => d == c
  | none => false

/-- Accumulator loop of Python `str.split(sep)`: splits at every separator
occurrence, keeping empty pieces, and always yields at least one piece. -/
def pySplitAux (sep : Char) : List Char → List Char → List String
  | acc, [] => [String.mk acc.reverse]
  | acc, c :: rest =>
    if c == sep then String.mk acc.reverse :: pySplitAux sep [] rest
    else pySplitAux sep (c :: acc) rest

/-- Model of Python `str.split(sep)` for a one-character separator, as used
by `FS.subfs` with `os.path.sep`. -/
def pySplit (s : String) (sep : Char) : List String :=
  pySplitAux sep [] s.data

/-- Model of the url normalization in `HTTPConnector.__init__` (http_cache.py,
lines 62-65): ensure the base url ends with a slash. -/
def normalizeUrl (url : String) : String :=
  if pyEndsWith url '/' then url else url ++ "/"

/-- Model of `HTTPConnector._header_with_token` (http_cache.py, lines
112-120).  `now` is the current `time.time()` and `fileContent` is what
reading the token file would return right now.  If no token path is
configured the headers are empty; otherwise the token is re-read when
strictly more than one second has elapsed since the last refresh, and the
`Authorization: Bearer <token>` header is built from the (possibly refreshed)
cached token. -/
def ConnectorState.header_with_token (c : ConnectorState) (now : ℚ)
    (fileContent : String) : List (String × String) × ConnectorState :=
  match c.bearer_token_path with
  | none => ([], c)
  | some _ =>
    let c' :=
      if now - c.bearer_token_updated > 1 then
        { c with bearer_token := fileContent, bearer_token_updated := now }
      else c
    ([("Authorization", "Bearer " ++ c'.bearer_token)], c')

/-- Model of `HTTPConnector.put` (http_cache.py, lines 79-93), parametric in
the transport `req` that stands for `self.conn.urlopen` (server state,
method, url, headers, body).  Returns `true` exactly on status 201; a
network-level `RequestError` or any other status yields `false` rather than
an exception. -/
def ConnectorState.putT {σ : Type}
    (req : σ → String → String → List (String × String) → Bytes → σ × ReqResult)
    (c : ConnectorState) (s : σ) (now : ℚ) (fileContent suffix : String)
    (data : Bytes) : (ConnectorState × σ) × Bool :=
  let hc := c.header_with_token now fileContent
  let sr := req s "PUT" (c.url ++ suffix) hc.1 data
  match sr.2 with
  | .error _ => ((hc.2, sr.1), false)
  | .response res => ((hc.2, sr.1), res.status == 201)

/-- Model of `HTTPConnector.get` (http_cache.py, lines 95-110), parametric in
the transport `req`.  Status 200 yields the body; status 404 yields `none`;
a network-level `RequestError` or any other status also yields `none` (the
source returns `None` on all three of these paths). -/
def ConnectorState.getT {σ : Type}
    (req : σ → String → String → List (String × String) → Bytes → σ × ReqResult)
    (c : ConnectorState) (s : σ) (now : ℚ) (fileContent suffix : String) :
    (ConnectorState × σ) × Option Bytes :=
  let hc := c.header_with_token now fileContent
  let sr := req s "GET" (c.url ++ suffix) hc.1 []
  match sr.2 with
  | .error _ => ((hc.2, sr.1), none)
  | .response res =>
    if res.status == 200 then ((hc.2, sr.1), some res.data)
    else if res.status == 404 then ((hc.2, sr.1), none)
    else ((hc.2, sr.1), none)

/-- A remote HTTP store keyed by full url: the claims model the backend as a
server that returns on GET exactly the bytes last PUT under the same url. -/
abbrev Store := List (String × Bytes)

/-- Faithful idealized server transport used to close the put/get loop: a PUT
stores the body under the url and answers 201; a GET answers 200 with the
most recently stored body, or 404 when the url was never written.  The second
component of the state counts network calls actually issued. -/
def serverRequest : (Store × Nat) → String → String → List (String × String) →
    Bytes → (Store × Nat) × ReqResult :=
  fun sn method url _hdrs body =>
    if method == "PUT" then
      (((url, body) :: sn.1, sn.2 + 1), .response ⟨201, []⟩)
    else
      match sn.1.lookup url with
      | some b => ((sn.1, sn.2 + 1), .response ⟨200, b⟩)
      | none => ((sn.1, sn.2 + 1), .response ⟨404, []⟩)

/-- A dynamically typed cache value: either a bytes object or some other
Python object (identified by a tag), mirroring that `HTTPCache.put` accepts
arbitrary values when pickling and bytes otherwise. -/
inductive PyVal where
  | pbytes (b : Bytes)
  | pother (n : Nat)
deriving DecidableEq, Repr

/-- Bytes view of a value, used on the `do_pickle = false` path where the
value is handed to the transport as the request body unchanged. -/
def PyVal.asBytes : PyVal → Bytes
  | .pbytes b => b
  | .pother _ => []

/-- Errors `HTTPCache` operations can raise: the `IndexError` of the range
check, and the error `pickle.loads` raises on undecodable data. -/
inductive CacheErr where
  | indexError (i : Int)
  | unpicklingError
deriving DecidableEq, Repr

/-- Configuration of `HTTPCache` (http_cache.py, lines 162-173): the declared
capacity (`length`) and the automatic pickle flag. -/
structure HTTPCacheState where
  length : Int
  do_pickle : Bool
deriving DecidableEq, Repr

/-- Model of `HTTPCache.put` (http_cache.py, lines 186-193) composed with the
idealized server: out-of-range indices raise `IndexError` before anything
else happens; otherwise the value (pickled via `dumps` when the flag is set)
is PUT under the url suffixed by the decimal index.  The connector state and
the server state are threaded explicitly. -/
def HTTPCacheState.put (dumps : PyVal → Bytes) (h : HTTPCacheState)
    (c : ConnectorState) (s : Store × Nat) (now : ℚ) (fileContent : String)
    (i : Int) (v : PyVal) : (ConnectorState × (Store × Nat)) × Except CacheErr Bool :=
  if i < 0 ∨ h.length ≤ i then
    ((c, s), .error (.indexError i))
  else
    let data := if h.do_pickle then dumps v else v.asBytes
    let r := c.putT serverRequest s now fileContent (toString i) data
    (r.1, .ok r.2)

/-- Model of `HTTPCache.get` (http_cache.py, lines 195-205) composed with the
idealized server: out-of-range indices raise `IndexError`; otherwise the url
suffixed by the decimal index is fetched, absence is returned as `none`, and
when the pickle flag is set present data is decoded with `loads` (decoding
failure is fatal). -/
def HTTPCacheState.get (loads : Bytes → Option PyVal) (h : HTTPCacheState)
    (c : ConnectorState) (s : Store × Nat) (now : ℚ) (fileContent : String)
    (i : Int) : (ConnectorState × (Store × Nat)) × Except CacheErr (Option PyVal) :=
  if i < 0 ∨ h.length ≤ i then
    ((c, s), .error (.indexError i))
  else
    let r := c.getT serverRequest s now fileContent (toString i)
    match r.2 with
    | some b =>
      if h.do_pickle then
        match loads b with
        | some v => (r.1, .ok (some v))
        | none => (r.1, .error .unpicklingError)
      else (r.1, .ok (some (.pbytes b)))
    | none => (r.1, .ok none)

/-- A concrete executable serializer standing in for `pickle.dumps`: tags a
bytes object with 0 and any other object with 1. -/
def pdumps : PyVal → Bytes
  | .pbytes b => 0 :: b
  | .pother n => [1, n]

/-- The matching concrete deserializer standing in for `pickle.loads`;
returns `none` on undecodable data (the model of `UnpicklingError`). -/
def ploads : Bytes → Option PyVal
  | 0 :: b => some (.pbytes b)
  | [1, n] => some (.pother n)
  | _ => none

/-- State of an `FS` value (fs.py, lines 84-155) as far as `subfs` is
concerned: the virtual working directory and a counter of how many times the
`_reset` hook has been triggered on this value (the hook itself is abstract
per backend). -/
structure FSState where
  cwd : String
  resetCount : Nat
deriving DecidableEq, Repr

/-- Model of `os.path.join(a, b)` for two POSIX path components, as used in
`FS.subfs`: an absolute second component replaces the first, otherwise the
components are joined with exactly one separator. -/
def ospath_join (a b : String) : String :=
  if pyStartsWith b '/' then b
  else if a == "" then b
  else if pyEndsWith a '/' then a ++ b
  else a ++ "/" ++ b

/-- Model of `FS.subfs` (fs.py, lines 118-138) together with `FS._newfs`:
an absolute `rel_path` is rejected; a `rel_path` one of whose `/`-separated
segments is exactly `".."` is rejected; otherwise a shallow copy of the FS is
returned whose working directory is the join of the parent's with `rel_path`
and whose `_reset` hook has been triggered once more.  `os.path.sep` is the
POSIX `"/"`. -/
def FSState.subfs (fs : FSState) (rel_path : String) : Except String FSState :=
  if pyStartsWith rel_path '/' then
    Except.error "Absolute path is not supported"
  else if (pySplit rel_path '/').contains ".." then
    Except.error "Only subtree is supported"
  else
    Except.ok { cwd := ospath_join fs.cwd rel_path, resetCount := fs.resetCount + 1 }

/-- Caller options and configuration sections, as ordered key/value lists
(Python dicts preserve insertion order). -/
abbrev Kwargs := List (String × String)

/-- The concrete backends `_from_scheme` can construct (fs.py, lines
455-465), recording the constructor arguments they would receive. -/
inductive Backend where
  | Local (dirname : String) (kwargs : Kwargs)
  | Hdfs (dirname : String) (kwargs : Kwargs)
  | S3 (bucket : Option String) (dirname : String) (kwargs : Kwargs)
deriving DecidableEq, Repr

/-- Errors `_from_scheme` can raise: the `ValueError` for a custom scheme
whose configured real scheme is not built-in, the `KeyError` of
`config_dict.pop('scheme')` when the section has no `scheme` key, and the
final `RuntimeError` for a scheme that is neither built-in nor configured. -/
inductive SchemeErr where
  | valueErrorUnsupported (scheme : String)
  | keyError
  | runtimeErrorBug (scheme : String)
deriving DecidableEq, Repr

/-- The built-in schemes (fs.py, line 439). -/
def known_scheme : List String := ["file", "hdfs", "s3"]

/-- Model of `dict.pop(k)`'s removal effect on an ordered key/value list. -/
def eraseKey (k : String) : Kwargs → Kwargs
  | [] => []
  | (k', v) :: rest =>
    if k' == k then eraseKey k rest else (k', v) :: eraseKey k rest

/-- Model of the merge loop in `_from_scheme` (fs.py, lines 450-453): each
configured default is added only when the caller did not supply that key, so
caller-supplied values are never overwritten. -/
def mergeDefaults (kwargs config : Kwargs) : Kwargs :=
  kwargs ++ config.filter (fun kv => (kwargs.lookup kv.1).isNone)

/-- The trailing if/elif chain of `_from_scheme` (fs.py, lines 455-465):
constructs the backend for a built-in scheme, and raises the "bug" /
unsupported-scheme `RuntimeError` for anything else. -/
def buildBackend (scheme dirname : String) (kwargs : Kwargs)
    (bucket : Option String) : Except SchemeErr Backend :=
  if scheme == "file" then .ok (.Local dirname kwargs)
  else if scheme == "hdfs" then .ok (.Hdfs dirname kwargs)
  else if scheme == "s3" then .ok (.S3 bucket dirname kwargs)
  else .error (.runtimeErrorBug scheme)

/-- Model of `_from_scheme` (fs.py, lines 438-467).  `conf` stands for
`_CustomScheme.config`: the lookup of a scheme section in the loaded INI
configuration.  A non-built-in scheme is resolved through the configuration:
a found section has its `scheme` key popped as the real scheme, which must be
built-in, and its remaining entries merged into the options without
overwriting caller-supplied values; a missing section leaves the unknown
scheme to fail in the construction chain. -/
def _from_scheme (conf : String → Option Kwargs) (scheme dirname : String)
    (kwargs : Kwargs) (bucket : Option String) : Except SchemeErr Backend :=
  if known_scheme.contains scheme then
    buildBackend scheme dirname kwargs bucket
  else
    match conf scheme with
    | none => buildBackend scheme dirname kwargs bucket
    | some config_dict =>
      match config_dict.lookup "scheme" with
      | none => .error .keyError
      | some real =>
        let rest := eraseKey "scheme" config_dict
        if known_scheme.contains real then
          buildBackend real dirname (mergeDefaults kwargs rest) bucket
        else
          .error (.valueErrorUnsupported real)

/-- A concrete connector state used to instantiate the theorems: no bearer
token configured, base url already slash-terminated. -/
def sampleConn : ConnectorState :=
  { url := "http://cache.example.com/", bearer_token_path := none,
    bearer_token := "", bearer_token_updated := 0 }

/-- A concrete connector state with a bearer token path configured, last
refreshed at time 0 with token text "old". -/
def sampleTokConn : ConnectorState :=
  { url := "http://cache.example.com/", bearer_token_path := some "/secrets/tok",
    bearer_token := "old", bearer_token_updated := 0 }

/-- A concrete FS state used to instantiate the theorems. -/
def sampleFS : FSState := { cwd := "base", resetCount := 0 }

/-- A concrete custom-scheme configuration used to instantiate the theorems:
maps the scheme name `web` to the real scheme `s3` with a default bucket. -/
def sampleConf : String → Option Kwargs :=
  fun s => if s == "web" then some [("scheme", "s3"), ("endpoint", "e1")] else none

/- ------------------------------------------------------------------ -/
/- Theorems                                                            -/
/- ------------------------------------------------------------------ -/

/-- Helper: a pool whose recorded pid matches the caller and whose client is
built handles any run of same-pid calls without ever rebuilding. -/
theorem runCalls_no_rebuild (p : ConnPool) (cur : Nat) (l : List Nat)
    (h1 : p.pid = some cur) (h2 : p.conn.isNone = false)
    (hl : ∀ q ∈ l, q = cur) : ConnPool.runCalls p l = (p, 0) := by
  induction l with
  | nil => rfl
  | cons q qs ih =>
    have hq : q = cur := hl q (List.mem_cons_self _ _)
    have hcall : p.urlopen q = (p, false) := by
      simp [ConnPool.urlopen, ConnPool.is_forked, hq, h1, h2]
    have hrest : ConnPool.runCalls p qs = (p, 0) :=
      ih (fun x hx => hl x (List.mem_cons_of_mem _ hx))
    simp [ConnPool.runCalls, hcall, hrest]

/-- C1: a `urlopen` call on a pool that was never built, or whose recorded
pid differs from the current one, rebuilds the pooled client with the
configured retries and timeout and records the current pid; over the whole
run consisting of that call and any further calls under the same pid, the
client is rebuilt exactly once. -/
theorem connection_pool_rebuild (p : ConnPool) (cur : Nat) (rest : List Nat)
    (h : p.conn = none ∨ p.pid ≠ some cur)
    (hrest : ∀ q ∈ rest, q = cur) :
    p.urlopen cur =
      ({ p with conn := some ⟨p.retries, p.timeout⟩, pid := some cur }, true) ∧
    (ConnPool.runCalls p (cur :: rest)).2 = 1 := by
  have hfirst : p.urlopen cur =
      ({ p with conn := some ⟨p.retries, p.timeout⟩, pid := some cur }, true) := by
    rcases h with h | h
    · simp [ConnPool.urlopen, ConnPool.is_forked, h]
    · simp [ConnPool.urlopen, ConnPool.is_forked, bne_iff_ne, h]
  refine ⟨hfirst, ?_⟩
  have htail : ConnPool.runCalls
      { p with conn := some ⟨p.retries, p.timeout⟩, pid := some cur } rest =
      ({ p with conn := some ⟨p.retries, p.timeout⟩, pid := some cur }, 0) :=
    runCalls_no_rebuild _ cur rest rfl rfl hrest
  simp [ConnPool.runCalls, hfirst, htail]

/-- Witness for C1 at a concrete forked pool: pid recorded as 1, current pid
9, two further calls at pid 9; the client is rebuilt exactly once. -/
theorem connection_pool_rebuild_witness :
    ConnPool.urlopen ⟨2, 5, some ⟨2, 5⟩, some 1⟩ 9 =
      (⟨2, 5, some ⟨2, 5⟩, some 9⟩, true) ∧
    (ConnPool.runCalls ⟨2, 5, some ⟨2, 5⟩, some 1⟩ [9, 9, 9]).2 = 1 :=
  connection_pool_rebuild ⟨2, 5, some ⟨2, 5⟩, some 1⟩ 9 [9, 9]
    (Or.inr (by decide)) (by decide)

/-- Helper: once the global pool exists, every later `_get_connection_pool`
call returns it unchanged, whatever arguments are passed. -/
theorem connectorInits_some (p : ConnPool) (l : List (Int × Int)) :
    connectorInits (some p) l = (l.map (fun _ => p), some p) := by
  induction l with
  | nil => rfl
  | cons x xs ih =>
    cases x
    simp [connectorInits, _get_connection_pool, ih]

/-- C9: within one process, the pool configuration is fixed by the first
`HTTPConnector` construction: every pool any constructor in the sequence
receives carries the first call's retries and timeout, whatever retries and
timeout the later calls pass. -/
theorem pool_config_first_wins (r t : Int) (rest : List (Int × Int)) :
    ∀ p ∈ (connectorInits none ((r, t) :: rest)).1,
      p.retries = r ∧ p.timeout = t := by
  intro p hp
  have hexp : (connectorInits none ((r, t) :: rest)).1 =
      (⟨r, t, none, none⟩ : ConnPool) :: rest.map (fun _ => ⟨r, t, none, none⟩) := by
    simp [connectorInits, _get_connection_pool, connectorInits_some]
  rw [hexp] at hp
  rcases List.mem_cons.mp hp with h | h
  · subst h; exact ⟨rfl, rfl⟩
  · rcases List.mem_map.mp h with ⟨a, _, rfl⟩
    exact ⟨rfl, rfl⟩

/-- Witness for C9: the pool handed out when a second constructor passes
retries 9 and timeout 9 still carries the first call's retries 2 and
timeout 7. -/
theorem pool_config_first_wins_witness :
    (⟨2, 7, none, none⟩ : ConnPool) ∈ (connectorInits none [(2, 7), (9, 9)]).1 ∧
    ((⟨2, 7, none, none⟩ : ConnPool).retries = 2 ∧
     (⟨2, 7, none, none⟩ : ConnPool).timeout = 7) :=
  ⟨by decide, pool_config_first_wins 2 7 [(9, 9)] ⟨2, 7, none, none⟩ (by decide)⟩

/-- C6: with a bearer token path configured, the built headers are exactly
`Authorization: Bearer <token>`; the token is re-read from the token file
when strictly more than one second has elapsed since the last refresh (and
the refresh time is recorded), and is the previously cached token, with the
state untouched, when the headers are built again within one second. -/
theorem bearer_token_refresh (c : ConnectorState) (tokpath : String) (now : ℚ)
    (fileContent : String) (hp : c.bearer_token_path = some tokpath) :
    (now - c.bearer_token_updated > 1 →
      c.header_with_token now fileContent =
        ([("Authorization", "Bearer " ++ fileContent)],
         { c with bearer_token := fileContent, bearer_token_updated := now })) ∧
    (¬ now - c.bearer_token_updated > 1 →
      c.header_with_token now fileContent =
        ([("Authorization", "Bearer " ++ c.bearer_token)], c)) := by
  constructor <;> intro hcond <;>
    simp [ConnectorState.header_with_token, hp, hcond]

/-- Witness for C6 on a concrete connector refreshed at time 0: at time 5 the
token file's new content is used and recorded; at time 1/2 the cached token
is used and the state is unchanged. -/
theorem bearer_token_refresh_witness :
    sampleTokConn.header_with_token 5 "new" =
      ([("Authorization", "Bearer new")],
       { sampleTokConn with bearer_token := "new", bearer_token_updated := 5 }) ∧
    sampleTokConn.header_with_token (1/2) "new" =
      ([("Authorization", "Bearer old")], sampleTokConn) :=
  ⟨(bearer_token_refresh sampleTokConn "/secrets/tok" 5 "new" rfl).1 (by norm_num [sampleTokConn]),
   (bearer_token_refresh sampleTokConn "/secrets/tok" (1/2) "new" rfl).2 (by norm_num [sampleTokConn])⟩

/-- C2 counterexample: the claim says a network-level error yields a failure
result distinguishable from absence; in the source, `HTTPConnector.get`
returns `None` both on a `RequestError` and on status 404, so at this
concrete input the two results are the same `none`. -/
theorem connector_get_error_indistinguishable :
    (sampleConn.getT (fun s _ _ _ _ => (s, ReqResult.error "connection refused"))
        () 0 "" "12").2 =
      (sampleConn.getT (fun s _ _ _ _ => (s, ReqResult.response ⟨404, []⟩))
        () 0 "" "12").2 ∧
    (sampleConn.getT (fun s _ _ _ _ => (s, ReqResult.response ⟨404, []⟩))
        () 0 "" "12").2 = none := by
  constructor <;> rfl

/-- C2 amended: `HTTPConnector.get` issues a GET to `base_url + key` and
returns the body on status 200, `none` on status 404, and also `none` — the
very same value as absence, not distinguishable from it — on a network-level
error or any other status, never raising to the caller. -/
theorem connector_get_outcomes {σ : Type}
    (req : σ → String → String → List (String × String) → Bytes → σ × ReqResult)
    (c : ConnectorState) (s : σ) (now : ℚ) (fileContent suffix : String) :
    (c.getT req s now fileContent suffix).2 =
      match (req s "GET" (c.url ++ suffix)
              (c.header_with_token now fileContent).1 []).2 with
      | ReqResult.error _ => none
      | ReqResult.response res => if res.status == 200 then some res.data else none := by
  simp only [ConnectorState.getT]
  cases hreq : (req s "GET" (c.url ++ suffix)
      (c.header_with_token now fileContent).1 []).2 with
  | error msg => rfl
  | response res =>
    by_cases h200 : res.status == 200
    · simp [h200]
    · by_cases h404 : res.status == 404 <;> simp [h200, h404]

/-- C5: `HTTPConnector.put` issues a PUT to `base_url + key` with the token
headers and the body, and returns `true` exactly when the transport answers
with status 201; a network-level error or any other status yields `false`
(the model returns a plain `Bool`, no exception reaches the caller). -/
theorem connector_put_status {σ : Type}
    (req : σ → String → String → List (String × String) → Bytes → σ × ReqResult)
    (c : ConnectorState) (s : σ) (now : ℚ) (fileContent suffix : String)
    (data : Bytes) :
    (c.putT req s now fileContent suffix data).2 = true ↔
      ∃ res : HTTPResponse,
        (req s "PUT" (c.url ++ suffix)
            (c.header_with_token now fileContent).1 data).2 =
          ReqResult.response res ∧ res.status = 201 := by
  simp only [ConnectorState.putT]
  cases hreq : (req s "PUT" (c.url ++ suffix)
      (c.header_with_token now fileContent).1 data).2 with
  | error msg => simp
  | response res =>
    simp only [beq_iff_eq]
    constructor
    · intro h; exact ⟨res, rfl, h⟩
    · rintro ⟨res', hres', h201⟩
      cases hres'
      exact h201

/-- C3: for an index outside `[0, capacity)`, both `HTTPCache.put` and
`HTTPCache.get` raise `IndexError` while leaving the connector state and the
server state (including its network-call counter) untouched, so no network
call is issued and the cache state is unchanged; for an index inside the
range, neither operation raises `IndexError`. -/
theorem httpcache_index_range (dumps : PyVal → Bytes) (loads : Bytes → Option PyVal)
    (h : HTTPCacheState) (c : ConnectorState) (s : Store × Nat) (now : ℚ)
    (fileContent : String) (i : Int) (v : PyVal) :
    ((i < 0 ∨ h.length ≤ i) →
      HTTPCacheState.put dumps h c s now fileContent i v =
        ((c, s), .error (.indexError i)) ∧
      HTTPCacheState.get loads h c s now fileContent i =
        ((c, s), .error (.indexError i))) ∧
    ((0 ≤ i ∧ i < h.length) →
      (∀ e, (HTTPCacheState.put dumps h c s now fileContent i v).2 ≠
        .error (.indexError e)) ∧
      (∀ e, (HTTPCacheState.get loads h c s now fileContent i).2 ≠
        .error (.indexError e))) := by
  constructor
  · intro hout
    constructor
    · simp [HTTPCacheState.put, hout]
    · simp [HTTPCacheState.get, hout]
  · intro hin
    have hcond : ¬ (i < 0 ∨ h.length ≤ i) := by omega
    constructor
    · intro e
      simp [HTTPCacheState.put, hcond]
    · intro e
      simp only [HTTPCacheState.get, if_neg hcond]
      cases hg : (c.getT serverRequest s now fileContent (toString i)).2 with
      | none => simp
      | some b =>
        by_cases hdp : h.do_pickle
        · cases hl2 : loads b <;> simp [hdp, hl2]
        · simp [hdp]

/-- Witness for C3 at a concrete out-of-range index -1 on a cache of
capacity 3: both operations return `IndexError` with the states unchanged. -/
theorem httpcache_index_range_witness :
    HTTPCacheState.put pdumps ⟨3, false⟩ sampleConn ([], 0) 0 "" (-1) (.pbytes [7]) =
      ((sampleConn, ([], 0)), .error (.indexError (-1))) ∧
    HTTPCacheState.get ploads ⟨3, false⟩ sampleConn ([], 0) 0 "" (-1) =
      ((sampleConn, ([], 0)), .error (.indexError (-1))) :=
  (httpcache_index_range pdumps ploads ⟨3, false⟩ sampleConn ([], 0) 0 "" (-1)
      (.pbytes [7])).1 (Or.inl (by decide))

/-- Helper: building the token headers never changes the connector's base
url. -/
theorem header_preserves_url (c : ConnectorState) (now : ℚ) (f : String) :
    (c.header_with_token now f).2.url = c.url := by
  simp only [ConnectorState.header_with_token]
  cases c.bearer_token_path with
  | none => rfl
  | some p => by_cases hc : now - c.bearer_token_updated > 1 <;> simp [hc]

/-- C4: for an in-range index and the backend modelled as a store that
returns on GET exactly the bytes last PUT under the same url, `put(i, v)`
succeeds and a following `get(i)` returns a value equal to `v`, with the
pickle flag held fixed (when the flag is set, the serializer round-trips on
`v`; when it is clear, `v` is a bytes value, as the source hands it to the
transport unchanged). -/
theorem httpcache_roundtrip (dumps : PyVal → Bytes) (loads : Bytes → Option PyVal)
    (h : HTTPCacheState) (c : ConnectorState) (st : Store) (n : Nat)
    (now now2 : ℚ) (f1 f2 : String) (i : Int) (v : PyVal)
    (hrange : 0 ≤ i ∧ i < h.length)
    (hpk : h.do_pickle = true → loads (dumps v) = some v)
    (hbytes : h.do_pickle = false → ∃ b, v = PyVal.pbytes b) :
    (HTTPCacheState.put dumps h c (st, n) now f1 i v).2 = .ok true ∧
    (HTTPCacheState.get loads h
        (HTTPCacheState.put dumps h c (st, n) now f1 i v).1.1
        (HTTPCacheState.put dumps h c (st, n) now f1 i v).1.2
        now2 f2 i).2 = .ok (some v) := by
  have hcond : ¬ (i < 0 ∨ h.length ≤ i) := by omega
  cases hdp : h.do_pickle with
  | true =>
    have hld : loads (dumps v) = some v := hpk hdp
    simp [HTTPCacheState.put, HTTPCacheState.get, if_neg hcond,
          ConnectorState.putT, ConnectorState.getT, serverRequest, hdp,
          header_preserves_url, List.lookup, hld]
  | false =>
    obtain ⟨b, rfl⟩ := hbytes hdp
    simp [HTTPCacheState.put, HTTPCacheState.get, if_neg hcond,
          ConnectorState.putT, ConnectorState.getT, serverRequest, hdp,
          header_preserves_url, List.lookup, PyVal.asBytes]

/-- Witness for C4 on a concrete cache of capacity 4 with pickling enabled:
putting the non-bytes value tagged 7 at index 2 succeeds and getting index 2
returns it back. -/
theorem httpcache_roundtrip_witness :
    (HTTPCacheState.put pdumps ⟨4, true⟩ sampleConn ([], 0) 0 "" 2 (.pother 7)).2 =
      .ok true ∧
    (HTTPCacheState.get ploads ⟨4, true⟩
        (HTTPCacheState.put pdumps ⟨4, true⟩ sampleConn ([], 0) 0 "" 2 (.pother 7)).1.1
        (HTTPCacheState.put pdumps ⟨4, true⟩ sampleConn ([], 0) 0 "" 2 (.pother 7)).1.2
        0 "" 2).2 = .ok (some (.pother 7)) :=
  httpcache_roundtrip pdumps ploads ⟨4, true⟩ sampleConn [] 0 0 0 "" "" 2 (.pother 7)
    ⟨by decide, by decide⟩ (fun _ => rfl) (fun hc => absurd hc (by decide))

/-- C7: `subfs` fails with the invalid-argument `RuntimeError` when the
relative path is absolute, or when one of its `/`-separated segments is
exactly `..`; otherwise it returns the shallow copy whose working directory
is the parent's joined with the relative path and whose reset hook has been
triggered. -/
theorem subfs_spec (fs : FSState) (rel : String) :
    (pyStartsWith rel '/' = true →
      fs.subfs rel = .error "Absolute path is not supported") ∧
    (pyStartsWith rel '/' = false → (pySplit rel '/').contains ".." = true →
      fs.subfs rel = .error "Only subtree is supported") ∧
    (pyStartsWith rel '/' = false → (pySplit rel '/').contains ".." = false →
      fs.subfs rel = .ok ⟨ospath_join fs.cwd rel, fs.resetCount + 1⟩) :=
  ⟨fun h1 => by simp [FSState.subfs, h1],
   fun h1 h2 => by
     have h2' : ".." ∈ pySplit rel '/' := by simpa using h2
     simp [FSState.subfs, h1, h2'],
   fun h1 h2 => by
     have h2' : ".." ∉ pySplit rel '/' := by simpa using h2
     simp [FSState.subfs, h1, h2']⟩

/-- Witness for C7 on a concrete FS with working directory `base`:
`subfs("/abs")` and `subfs("..")` fail with the two invalid-argument errors,
and `subfs("a/b")` yields working directory `base/a/b` with the reset hook
triggered once. -/
theorem subfs_spec_witness :
    sampleFS.subfs "/abs" = .error "Absolute path is not supported" ∧
    sampleFS.subfs ".." = .error "Only subtree is supported" ∧
    sampleFS.subfs "a/b" = .ok ⟨"base/a/b", 1⟩ :=
  ⟨(subfs_spec sampleFS "/abs").1 (by decide),
   (subfs_spec sampleFS "..").2.1 (by decide) (by decide),
   ((subfs_spec sampleFS "a/b").2.2 (by decide) (by decide)).trans rfl⟩

/-- C10: `subfs` rejects a relative path only when an entire `/`-separated
segment equals `..`: any non-absolute path none of whose segments is exactly
`..` — in particular one where `..` occurs merely inside a longer segment
such as `a..b` — is accepted and joined into the new working directory. -/
theorem subfs_dotdot_substring (fs : FSState) (rel : String)
    (h1 : pyStartsWith rel '/' = false)
    (h2 : ∀ seg ∈ pySplit rel '/', seg ≠ "..") :
    fs.subfs rel = .ok ⟨ospath_join fs.cwd rel, fs.resetCount + 1⟩ := by
  have hc : ".." ∉ pySplit rel '/' := fun hm => h2 ".." hm rfl
  simp [FSState.subfs, h1, hc]

/-- Witness for C10: the path `a..b`, whose single segment contains `..` only
as a proper substring, is accepted and joined. -/
theorem subfs_dotdot_substring_witness :
    sampleFS.subfs "a..b" = .ok ⟨"base/a..b", 1⟩ :=
  (subfs_dotdot_substring sampleFS "a..b" (by decide)
    (by decide)).trans rfl

/-- Helper: a key bound in the left list keeps its binding after appending
any list on the right (how the merge loop preserves caller options). -/
theorem lookup_append_left {l1 l2 : Kwargs} {k v : String}
    (h : l1.lookup k = some v) : (l1 ++ l2).lookup k = some v := by
  induction l1 with
  | nil => simp [List.lookup] at h
  | cons x xs ih =>
    obtain ⟨k', v'⟩ := x
    by_cases hk : (k == k') = true
    · simp [List.lookup, hk] at h ⊢
      exact h
    · simp only [Bool.not_eq_true] at hk
      simp [List.lookup, hk] at h ⊢
      exact ih h

/-- C8: for a url scheme that is not built-in, backend construction consults
the custom-scheme configuration: a missing section fails with the
unsupported-scheme `RuntimeError`; a section whose configured real scheme is
itself not built-in fails with `ValueError`; otherwise the backend for the
real scheme is constructed with the configured defaults merged into the
options, never overwriting a caller-supplied value. -/
theorem from_scheme_custom (conf : String → Option Kwargs)
    (scheme dirname : String) (kwargs : Kwargs) (bucket : Option String)
    (hunknown : known_scheme.contains scheme = false) :
    (conf scheme = none →
      _from_scheme conf scheme dirname kwargs bucket =
        .error (.runtimeErrorBug scheme)) ∧
    (∀ d real, conf scheme = some d → d.lookup "scheme" = some real →
      known_scheme.contains real = false →
      _from_scheme conf scheme dirname kwargs bucket =
        .error (.valueErrorUnsupported real)) ∧
    (∀ d real, conf scheme = some d → d.lookup "scheme" = some real →
      known_scheme.contains real = true →
      _from_scheme conf scheme dirname kwargs bucket =
        buildBackend real dirname (mergeDefaults kwargs (eraseKey "scheme" d)) bucket ∧
      ∀ k v, kwargs.lookup k = some v →
        (mergeDefaults kwargs (eraseKey "scheme" d)).lookup k = some v) := by
  have hnotmem : scheme ∉ known_scheme := by
    intro hm
    have : known_scheme.contains scheme = true := by
      simp [List.contains, List.elem_eq_mem, hm]
    rw [this] at hunknown
    cases hunknown
  have hbf : (scheme == "file") = false :=
    beq_eq_false_iff_ne.mpr fun e => hnotmem (by simp [known_scheme, e])
  have hbh : (scheme == "hdfs") = false :=
    beq_eq_false_iff_ne.mpr fun e => hnotmem (by simp [known_scheme, e])
  have hbs : (scheme == "s3") = false :=
    beq_eq_false_iff_ne.mpr fun e => hnotmem (by simp [known_scheme, e])
  refine ⟨?_, ?_, ?_⟩
  · intro hnone
    simp [_from_scheme, hnotmem, hnone, buildBackend, hbf, hbh, hbs]
  · intro d real hconf hlook hbad
    have hbadmem : real ∉ known_scheme := by simpa using hbad
    simp [_from_scheme, hnotmem, hconf, hlook, hbadmem]
  · intro d real hconf hlook hok
    have hokmem : real ∈ known_scheme := by simpa using hok
    refine ⟨by simp [_from_scheme, hnotmem, hconf, hlook, hokmem], ?_⟩
    intro k v hkv
    unfold mergeDefaults
    exact lookup_append_left hkv

/-- Witness for C8 at the concrete configuration mapping `web` to the real
scheme `s3` with default endpoint `e1`: construction yields the S3 backend,
and the caller-supplied endpoint survives the merge unchanged. -/
theorem from_scheme_custom_witness :
    _from_scheme sampleConf "web" "/d" [("endpoint", "mine")] (some "bkt") =
      .ok (.S3 (some "bkt") "/d" [("endpoint", "mine")]) ∧
    (mergeDefaults [("endpoint", "mine")]
        (eraseKey "scheme" [("scheme", "s3"), ("endpoint", "e1")])).lookup "endpoint" =
      some "mine" := by
  have h := (from_scheme_custom sampleConf "web" "/d" [("endpoint", "mine")]
      (some "bkt") (by decide)).2.2 [("scheme", "s3"), ("endpoint", "e1")] "s3"
      rfl rfl (by decide)
  exact ⟨h.1.trans rfl, h.2 "endpoint" "mine" rfl⟩

end Pfio
